import Mathlib

set_option linter.unusedVariables false

/-! Shallow embedding of the core of the WhatsApp fleet manager:
the Fleet Coordinator (src/src/modules/instance/instance.service.ts),
the Session State Store (AuthService, src/unnamed/part_005), and the
configuration defaults (src/src/config/app.config.ts).  Registry rows
follow the whatsapp_instances migration (src/unnamed/part_001). -/

namespace Wpp

/-- Connection status enum of a whatsapp_instances row
(src/unnamed/part_001, comment on connection_status). -/
inductive Status where
  | disconnected
  | connecting
  | qr_pending
  | connected
  | failed
deriving DecidableEq, Repr

/-- One whatsapp_instances row (src/unnamed/part_001). -/
structure Row where
  id : String
  user_id : String
  instance_name : String
  webhook_url : String
  connection_status : Status
  is_connected : Bool
  qr_code : Option String
  qr_code_expires_at : Option Nat
  owner_phone_number : Option String
  last_connected_at : Option Nat
deriving DecidableEq, Repr

/-- Configuration values used by the coordinator (app.config.ts). -/
structure Config where
  maxInstances : Nat
  staggeredBootDelayMs : Nat
deriving Repr

/-- Defaults from app.config.ts: MAX_INSTANCES 80, STAGGERED_BOOT_DELAY_MS 500. -/
def config : Config := { maxInstances := 80, staggeredBootDelayMs := 500 }

/-- Association-list lookup used for the service's Maps. -/
def lookupA {α : Type} (m : List (String × α)) (k : String) : Option α :=
  match m with
  | [] => none
  | (k2, v) :: rest => if k2 = k then some v else lookupA rest k

/-- Association-list update (Map.set). -/
def setAssoc {α : Type} (m : List (String × α)) (k : String) (v : α) : List (String × α) :=
  match m with
  | [] => [(k, v)]
  | (k2, v2) :: rest => if k2 = k then (k, v) :: rest else (k2, v2) :: setAssoc rest k v

/-- Association-list removal (Map.delete). -/
def eraseAssoc {α : Type} (m : List (String × α)) (k : String) : List (String × α) :=
  m.filter (fun p => p.1 != k)

/-- In-memory coordinator state of InstanceService plus the two external
tables it drives (whatsapp_instances rows, whatsapp_sessions ids), plus a
trace of enqueueReconnection invocations. -/
structure CoordState where
  sockets : List (String × Option String)
  qrCodes : List (String × String)
  reconnecting : List String
  reconnectAttempts : List (String × Nat)
  rows : List Row
  sessions : List String
  scheduled : List String
deriving Repr

/-- Update one registry row in place by instance id. -/
def updateRows (rows : List Row) (id : String) (f : Row → Row) : List Row :=
  rows.map (fun r => if r.id = id then f r else r)

/-- InstanceService.updateConnectionStatus: write connection_status and the
derived is_connected flag to the row. -/
def updateConnectionStatus (st : CoordState) (id : String) (s : Status) : CoordState :=
  { st with rows := updateRows st.rows id (fun r =>
      { r with connection_status := s, is_connected := decide (s = Status.connected) }) }

/-- InstanceService.connectInstance: end and drop a pre-existing socket,
write status connecting, open the auth state and register a fresh socket
(whose user id is unknown until the connection opens). -/
def connectInstance (st : CoordState) (id name : String) : CoordState :=
  let st1 := { st with sockets := eraseAssoc st.sockets id }
  let st2 := updateConnectionStatus st1 id Status.connecting
  { st2 with sockets := setAssoc st2.sockets id none }

/-- Baileys DisconnectReason.loggedOut sentinel (HTTP 401). -/
def loggedOut : Nat := 401

/-- Cap MAX_RECONNECT_ATTEMPTS from instance.service.ts. -/
def MAX_RECONNECT_ATTEMPTS : Nat := 5

/-- Connection half of a Baileys ConnectionState update. -/
inductive ConnKind where
  | kopen
  | kclose
deriving DecidableEq, Repr

/-- The slice of a Baileys connection.update event the handler reads:
connection, lastDisconnect error status code, and the QR challenge. -/
structure ConnUpdate where
  connection : Option ConnKind
  statusCode : Option Nat
  qr : Option String
deriving Repr

/-- Rendering of a QR challenge string into a 300 px PNG data URL.
Modelled from the spec: the external qrcode library renders the challenge
into a base64 PNG data URL; the payload is kept opaque, only the data-URL
prefix (hence non-emptiness) matters to the core. -/
def qrToDataURL (q : String) : String := "data:image/png;base64," ++ q

/-- InstanceService.handleConnectionUpdate: the QR branch, the open branch
and the close branch, executed in the order of the source. -/
def handleConnectionUpdate (st : CoordState) (id name : String)
    (u : ConnUpdate) (now : Nat) : CoordState :=
  let st1 :=
    match u.qr with
    | none => st
    | some q =>
        let dataUrl := qrToDataURL q
        let sta := { st with qrCodes := setAssoc st.qrCodes id dataUrl }
        { sta with rows := updateRows sta.rows id (fun r =>
            { r with connection_status := Status.qr_pending,
                     qr_code := some dataUrl,
                     qr_code_expires_at := some (now + 60000) }) }
  let st2 :=
    if u.connection = some ConnKind.kopen then
      let sta := { st1 with
        qrCodes := eraseAssoc st1.qrCodes id,
        reconnecting := st1.reconnecting.filter (fun x => x != id),
        reconnectAttempts := eraseAssoc st1.reconnectAttempts id }
      let phone : Option String :=
        (lookupA sta.sockets id).bind (fun ouid =>
          ouid.map (fun uid => (uid.splitOn ":").headD uid))
      { sta with rows := updateRows sta.rows id (fun r =>
          { r with connection_status := Status.connected,
                   is_connected := true,
                   qr_code := none,
                   qr_code_expires_at := none,
                   owner_phone_number := phone,
                   last_connected_at := some now }) }
    else st1
  if u.connection = some ConnKind.kclose then
    let shouldReconnect : Bool := decide (u.statusCode ≠ some loggedOut)
    let stc := { st2 with
      sockets := eraseAssoc st2.sockets id,
      qrCodes := eraseAssoc st2.qrCodes id }
    if shouldReconnect && !(stc.reconnecting.contains id) then
      let attempts := (lookupA stc.reconnectAttempts id).getD 0 + 1
      let stc2 := { stc with reconnectAttempts := setAssoc stc.reconnectAttempts id attempts }
      if attempts > MAX_RECONNECT_ATTEMPTS then
        updateConnectionStatus
          { stc2 with reconnectAttempts := eraseAssoc stc2.reconnectAttempts id }
          id Status.failed
      else
        let stc3 := { stc2 with reconnecting := id :: stc2.reconnecting }
        let stc4 := updateConnectionStatus stc3 id Status.connecting
        { stc4 with scheduled := stc4.scheduled ++ [id] }
    else
      let ste := { stc with
        reconnecting := stc.reconnecting.filter (fun x => x != id),
        reconnectAttempts := eraseAssoc stc.reconnectAttempts id }
      let ste2 := { ste with rows := updateRows ste.rows id (fun r =>
          { r with connection_status := Status.disconnected,
                   is_connected := false,
                   qr_code := none,
                   qr_code_expires_at := none,
                   owner_phone_number := none }) }
      { ste2 with sessions := ste2.sessions.filter (fun x => x != name) }
  else st2

/-- Error kinds surfaced to HTTP callers: ConflictException (409),
NotFoundException (404), and a generic thrown Error (500). -/
inductive ApiError where
  | conflict
  | notFound
  | internal
deriving DecidableEq, Repr

/-- CreateInstanceDto (src/unnamed/part_004). -/
structure CreateInstanceDto where
  user_id : String
  instance_name : String
  webhook_url : String
deriving Repr

/-- InstanceService.createInstance: capacity check against the in-memory
socket map, name-existence pre-check, insert (the database enforces the
instance_name UNIQUE and one_instance_per_user UNIQUE constraints; an
insert error is re-thrown as a plain Error), then connectInstance.
newId stands for the uuid the database generates. -/
def createInstance (cfg : Config) (st : CoordState) (dto : CreateInstanceDto)
    (newId : String) : Except ApiError Row × CoordState :=
  if st.sockets.length ≥ cfg.maxInstances then
    (Except.error ApiError.conflict, st)
  else if (st.rows.find? (fun r => r.instance_name == dto.instance_name)).isSome then
    (Except.error ApiError.conflict, st)
  else if (st.rows.find? (fun r =>
      r.user_id == dto.user_id || r.instance_name == dto.instance_name || r.id == newId)).isSome then
    (Except.error ApiError.internal, st)
  else
    let row : Row := { id := newId, user_id := dto.user_id,
                       instance_name := dto.instance_name,
                       webhook_url := dto.webhook_url,
                       connection_status := Status.disconnected,
                       is_connected := false,
                       qr_code := none, qr_code_expires_at := none,
                       owner_phone_number := none, last_connected_at := none }
    let st1 := { st with rows := st.rows ++ [row] }
    (Except.ok row, connectInstance st1 newId dto.instance_name)

/-- InstanceService.deleteInstance: getInstance (404 when absent), end and
drop the socket, drop the QR mirror and the reconnecting flag, remove the
session row, delete the registry row.  reconnectAttempts is left untouched,
as in the source. -/
def deleteInstance (st : CoordState) (id : String) : Except ApiError CoordState :=
  match st.rows.find? (fun r => r.id == id) with
  | none => Except.error ApiError.notFound
  | some row =>
      let st1 := { st with
        sockets := eraseAssoc st.sockets id,
        qrCodes := eraseAssoc st.qrCodes id,
        reconnecting := st.reconnecting.filter (fun x => x != id) }
      let st2 := { st1 with sessions := st1.sessions.filter (fun x => x != row.instance_name) }
      Except.ok { st2 with rows := st2.rows.filter (fun r => r.id != id) }

/-- Database fallback of InstanceService.getQrCode. -/
def getQrCodeDb (st : CoordState) (id : String) : Except ApiError (Option String × Status) :=
  match st.rows.find? (fun r => r.id == id) with
  | none => Except.error ApiError.notFound
  | some r => Except.ok (r.qr_code, r.connection_status)

/-- InstanceService.getQrCode: the in-memory mirror is consulted first and,
when its entry is truthy (a non-empty string), answered from memory with
status qr_pending; otherwise the registry row is fetched and 404 raised
when absent. -/
def getQrCode (st : CoordState) (id : String) : Except ApiError (Option String × Status) :=
  match lookupA st.qrCodes id with
  | some q => if q = "" then getQrCodeDb st id else Except.ok (some q, Status.qr_pending)
  | none => getQrCodeDb st id

/-! Boot recovery (InstanceService.onModuleInit). -/

/-- Connection statuses selected by the boot-recovery query
(.in connection_status ['connected', 'connecting', 'qr_pending']). -/
def activeStatus (r : Row) : Bool :=
  r.connection_status == Status.connected ||
  r.connection_status == Status.connecting ||
  r.connection_status == Status.qr_pending

/-- Ascending order on last_connected_at used by the boot query; a null
timestamp sorts last, as in the database's default ascending order. -/
def lcaLe (a b : Row) : Prop :=
  match a.last_connected_at, b.last_connected_at with
  | none, none => True
  | none, some _ => False
  | some _, none => True
  | some x, some y => x ≤ y

instance : DecidableRel lcaLe := fun a b => by
  unfold lcaLe
  rcases a.last_connected_at with _ | x <;> rcases b.last_connected_at with _ | y <;>
    exact inferInstance

instance : IsTotal Row lcaLe := by
  constructor
  intro a b
  unfold lcaLe
  generalize a.last_connected_at = oa
  generalize b.last_connected_at = ob
  cases oa <;> cases ob <;> simp <;> omega

instance : IsTrans Row lcaLe := by
  constructor
  intro a b c
  unfold lcaLe
  generalize a.last_connected_at = oa
  generalize b.last_connected_at = ob
  generalize c.last_connected_at = oc
  intro hab hbc
  cases oa <;> cases ob <;> cases oc <;> simp_all <;> omega

/-- Registry query issued by onModuleInit: rows whose status is active,
ordered by last_connected_at ascending, limited to maxInstances. -/
def bootQuery (cfg : Config) (rows : List Row) : List Row :=
  (List.insertionSort lcaLe (rows.filter activeStatus)).take cfg.maxInstances

/-- BOOT_BATCH_SIZE from instance.service.ts. -/
def BOOT_BATCH_SIZE : Nat := 5

/-- Batching loop of onModuleInit: slices of BOOT_BATCH_SIZE. -/
def bootBatches (l : List Row) : List (List Row) :=
  match l with
  | [] => []
  | x :: xs => ((x :: xs).take BOOT_BATCH_SIZE) :: bootBatches ((x :: xs).drop BOOT_BATCH_SIZE)
termination_by l.length
decreasing_by
  simp only [List.length_drop, List.length_cons, BOOT_BATCH_SIZE]
  omega

/-- Observable actions of boot recovery: a connectInstance call (with its
outcome; a rejection is caught and only logged) or a staggered sleep. -/
inductive BootEv where
  | connect (id : String) (ok : Bool)
  | sleep (ms : Nat)
deriving DecidableEq, Repr

/-- Boot events of one batch: connectInstance for every row, in parallel,
each failure caught independently. -/
def batchTrace (fails : String → Bool) (b : List Row) : List BootEv :=
  b.map (fun r => BootEv.connect r.id (!(fails r.id)))

/-- Boot events of a batch list: a sleep of the staggered delay between
consecutive batches and none after the final batch, following the
(i + BOOT_BATCH_SIZE < instances.length) guard of the source. -/
def bootTrace (d : Nat) (fails : String → Bool) : List (List Row) → List BootEv
  | [] => []
  | [b] => batchTrace fails b
  | b :: b2 :: rest => batchTrace fails b ++ BootEv.sleep d :: bootTrace d fails (b2 :: rest)

/-- InstanceService.onModuleInit as an event trace. -/
def onModuleInit (cfg : Config) (fails : String → Bool) (rows : List Row) : List BootEv :=
  bootTrace cfg.staggeredBootDelayMs fails (bootBatches (bootQuery cfg rows))

/-- Instance ids of connect events, in order. -/
def connectIds (tr : List BootEv) : List String :=
  tr.filterMap (fun e => match e with | BootEv.connect i _ => some i | _ => none)

/-- Sleep-event recogniser. -/
def isSleep : BootEv → Bool
  | BootEv.sleep _ => true
  | _ => false

theorem bootBatches_flatten (l : List Row) : (bootBatches l).flatten = l := by
  induction l using bootBatches.induct with
  | case1 => simp [bootBatches]
  | case2 x xs ih =>
      rw [bootBatches]
      simp only [List.flatten_cons]
      rw [ih, List.take_append_drop]

theorem bootBatches_length (l : List Row) :
    (bootBatches l).length = (l.length + 4) / 5 := by
  induction l using bootBatches.induct with
  | case1 => simp [bootBatches]
  | case2 x xs ih =>
      rw [bootBatches]
      simp only [List.length_cons, ih, List.length_drop, List.length_take]
      simp only [BOOT_BATCH_SIZE]
      omega

theorem bootBatches_sizes (l : List Row) :
    (bootBatches l).all (fun b => decide (b.length ≤ 5)) = true := by
  induction l using bootBatches.induct with
  | case1 => simp [bootBatches]
  | case2 x xs ih =>
      rw [bootBatches]
      simp only [List.all_cons, ih, Bool.and_true]
      simp [BOOT_BATCH_SIZE]

theorem connectIds_batchTrace (fails : String → Bool) (b : List Row) :
    connectIds (batchTrace fails b) = b.map Row.id := by
  induction b with
  | nil => rfl
  | cons r rest ih => simp [batchTrace, connectIds] at ih ⊢; exact ih

theorem connectIds_append (t1 t2 : List BootEv) :
    connectIds (t1 ++ t2) = connectIds t1 ++ connectIds t2 := by
  simp [connectIds]

theorem connectIds_bootTrace (d : Nat) (fails : String → Bool) (bs : List (List Row)) :
    connectIds (bootTrace d fails bs) = (bs.flatten).map Row.id := by
  induction bs with
  | nil => rfl
  | cons b rest ih =>
      cases rest with
      | nil => simp [bootTrace, connectIds_batchTrace]
      | cons b2 rest2 =>
          rw [bootTrace, connectIds_append]
          have h1 : connectIds (BootEv.sleep d :: bootTrace d fails (b2 :: rest2)) =
              connectIds (bootTrace d fails (b2 :: rest2)) := by
            simp [connectIds]
          rw [h1, ih, connectIds_batchTrace]
          simp [List.flatten_cons]

theorem sleeps_bootTrace (d : Nat) (fails : String → Bool) (bs : List (List Row)) :
    (bootTrace d fails bs).filter isSleep =
      List.replicate (bs.length - 1) (BootEv.sleep d) := by
  induction bs with
  | nil => rfl
  | cons b rest ih =>
      cases rest with
      | nil =>
          simp [bootTrace, batchTrace, List.filter_map, isSleep, Function.comp]
      | cons b2 rest2 =>
          rw [bootTrace, List.filter_append]
          have hb : (batchTrace fails b).filter isSleep = [] := by
            simp [batchTrace, List.filter_map, isSleep, Function.comp]
          rw [hb]
          simp only [List.nil_append, List.filter_cons]
          rw [ih]
          simp [isSleep, List.replicate_succ]

/-! Session State Store (AuthService, src/unnamed/part_005): binary-aware
JSON codec, the in-memory key store of getAuthState, and the debounced
keys persistence. -/

mutual
/-- Value stored in a session document: JSON values extended with raw byte
sequences (Buffers).  The values the datastore holds are the buffer-free
image of the codec's encoder. -/
inductive Val where
  | null
  | vbool (b : Bool)
  | vnum (n : Int)
  | vstr (s : String)
  | vbuf (bytes : List Nat)
  | varr (xs : Arr)
  | vobj (fs : Obj)

/-- Array of values. -/
inductive Arr where
  | anil
  | acons (x : Val) (xs : Arr)

/-- Object: ordered association of field names to values. -/
inductive Obj where
  | onil
  | ocons (name : String) (x : Val) (fs : Obj)
end

deriving instance DecidableEq, Repr for Val, Arr, Obj

/-- Byte list rendered as a JSON array of numbers. -/
def natsToArr : List Nat → Arr
  | [] => Arr.anil
  | b :: bs => Arr.acons (Val.vnum (Int.ofNat b)) (natsToArr bs)

/-- JSON array of non-negative numbers read back as a byte list. -/
def arrToNats : Arr → Option (List Nat)
  | Arr.anil => some []
  | Arr.acons (Val.vnum n) xs =>
      if 0 ≤ n then (arrToNats xs).map (fun l => n.toNat :: l) else none
  | _ => none

mutual
/-- Binary-aware JSON encoder.  Modelled from the spec: raw byte sequences
inside either document are encoded as tagged objects of the form
(type: "Buffer", data: byte array); the external BufferJSON.replacer is
applied by JSON.stringify at every level of the document. -/
def encode : Val → Val
  | Val.null => Val.null
  | Val.vbool b => Val.vbool b
  | Val.vnum n => Val.vnum n
  | Val.vstr s => Val.vstr s
  | Val.vbuf bs =>
      Val.vobj (Obj.ocons "type" (Val.vstr "Buffer")
        (Obj.ocons "data" (Val.varr (natsToArr bs)) Obj.onil))
  | Val.varr xs => Val.varr (encodeArr xs)
  | Val.vobj fs => Val.vobj (encodeObj fs)

def encodeArr : Arr → Arr
  | Arr.anil => Arr.anil
  | Arr.acons x xs => Arr.acons (encode x) (encodeArr xs)

def encodeObj : Obj → Obj
  | Obj.onil => Obj.onil
  | Obj.ocons k x fs => Obj.ocons k (encode x) (encodeObj fs)
end

/-- Recognition of the Buffer tag shape by the decoder. -/
def asBufTag : Obj → Option (List Nat)
  | Obj.ocons "type" (Val.vstr "Buffer") (Obj.ocons "data" (Val.varr ds) Obj.onil) =>
      arrToNats ds
  | _ => none

mutual
/-- Binary-aware JSON decoder.  Modelled from the spec: tagged objects are
decoded back to byte sequences on read; the external BufferJSON.reviver
runs bottom-up under JSON.parse, so children are revived first. -/
def decode : Val → Val
  | Val.vobj fs =>
      let fs2 := decodeObj fs
      match asBufTag fs2 with
      | some bs => Val.vbuf bs
      | none => Val.vobj fs2
  | Val.varr xs => Val.varr (decodeArr xs)
  | v => v

def decodeArr : Arr → Arr
  | Arr.anil => Arr.anil
  | Arr.acons x xs => Arr.acons (decode x) (decodeArr xs)

def decodeObj : Obj → Obj
  | Obj.onil => Obj.onil
  | Obj.ocons k x fs => Obj.ocons k (decode x) (decodeObj fs)
end

mutual
/-- A value is tag-free when no object inside it already has the literal
Buffer-tag shape; on such values the decoder inverts the encoder. -/
def tagFree : Val → Bool
  | Val.varr xs => tagFreeArr xs
  | Val.vobj fs => (asBufTag fs).isNone && tagFreeObj fs
  | _ => true

def tagFreeArr : Arr → Bool
  | Arr.anil => true
  | Arr.acons x xs => tagFree x && tagFreeArr xs

def tagFreeObj : Obj → Bool
  | Obj.onil => true
  | Obj.ocons _ x fs => tagFree x && tagFreeObj fs
end

theorem decodeArr_natsToArr (bs : List Nat) : decodeArr (natsToArr bs) = natsToArr bs := by
  induction bs with
  | nil => rfl
  | cons b rest ih => simp [natsToArr, decodeArr, decode, ih]

theorem arrToNats_natsToArr (bs : List Nat) : arrToNats (natsToArr bs) = some bs := by
  induction bs with
  | nil => rfl
  | cons b rest ih => simp [natsToArr, arrToNats, ih]

mutual
theorem decode_encode : (v : Val) → tagFree v = true → decode (encode v) = v
  | Val.null, _ => rfl
  | Val.vbool b, _ => rfl
  | Val.vnum n, _ => rfl
  | Val.vstr s, _ => rfl
  | Val.vbuf bs, _ => by
      simp [encode, decode, decodeObj, decodeArr_natsToArr, asBufTag, arrToNats_natsToArr]
  | Val.varr xs, h => by
      simp only [tagFree] at h
      simp [encode, decode, decodeArr_encodeArr xs h]
  | Val.vobj fs, h => by
      simp only [tagFree, Bool.and_eq_true, Option.isNone_iff_eq_none] at h
      simp only [encode, decode, decodeObj_encodeObj fs h.2, h.1]

theorem decodeArr_encodeArr : (xs : Arr) → tagFreeArr xs = true → decodeArr (encodeArr xs) = xs
  | Arr.anil, _ => rfl
  | Arr.acons x xs, h => by
      simp only [tagFreeArr, Bool.and_eq_true] at h
      simp [encodeArr, decodeArr, decode_encode x h.1, decodeArr_encodeArr xs h.2]

theorem decodeObj_encodeObj : (fs : Obj) → tagFreeObj fs = true → decodeObj (encodeObj fs) = fs
  | Obj.onil, _ => rfl
  | Obj.ocons k x fs, h => by
      simp only [tagFreeObj, Bool.and_eq_true] at h
      simp [encodeObj, decodeObj, decode_encode x h.1, decodeObj_encodeObj fs h.2]
end

/-- Compound key of the in-memory keys map. -/
def compositeKey (type id : String) : String := type ++ "-" ++ id

/-- Truthiness of a stored value, exactly as tested by the source's
(if rawValue) guard in keys.get: undefined, null, false, 0 and the empty
string are falsy; objects and arrays are truthy. -/
def truthy : Val → Bool
  | Val.null => false
  | Val.vbool b => b
  | Val.vnum n => !(n == 0)
  | Val.vstr s => !(s == "")
  | _ => true

/-- Lifting of the decoded app-state-sync-key document into the protocol
library's structured form.  Modelled from the spec: the lifting preserves
the document's content; it is the identity on the decoded value. -/
def fromObject (v : Val) : Val := v

/-- One (type, id, value) triple of a key_store.set patch (keys.set in
getAuthState): a null value deletes the compound key, otherwise the value
is serialized through the binary-aware codec and stored in the in-memory
keys map.  Persistence is debounced separately; the call completes first. -/
def keySet (m : List (String × Val)) (type id : String) (v : Option Val) :
    List (String × Val) :=
  match v with
  | none => eraseAssoc m (compositeKey type id)
  | some b => setAssoc m (compositeKey type id) (encode b)

/-- key_store.get (keys.get in getAuthState): for each requested id, a
truthy stored value is decoded through the codec (and lifted for the
app-state-sync-key category); missing ids are absent from the result. -/
def keyGet (m : List (String × Val)) (type : String) (ids : List String) :
    List (String × Val) :=
  match ids with
  | [] => []
  | id :: rest =>
      let tail := keyGet m type rest
      match lookupA m (compositeKey type id) with
      | some raw =>
          if truthy raw then
            (id, if type == "app-state-sync-key" then fromObject (decode raw) else decode raw)
              :: tail
          else tail
      | none => tail

/-- DEBOUNCE window of debouncedKeyWrite, in milliseconds. -/
def DEBOUNCE_MS : Nat := 500

/-- One keys.set call as the debouncer sees it: its wall-clock time and
the keys snapshot handed to debouncedKeyWrite. -/
structure SetCall where
  time : Nat
  snap : List (String × Val)
deriving DecidableEq

/-- Timing semantics of AuthService.debouncedKeyWrite: each call cancels
the pending timer and schedules a write of its snapshot DEBOUNCE_MS after
its own time; a pending timer that fires before the next call emits its
write first.  Returns the keys updates the datastore sees, as
(fire time, keys document) pairs, in order. -/
def runDebounce (pending : Option (Nat × List (String × Val))) :
    List SetCall → List (Nat × List (String × Val))
  | [] =>
      match pending with
      | none => []
      | some p => [p]
  | c :: rest =>
      match pending with
      | none => runDebounce (some (c.time + DEBOUNCE_MS, c.snap)) rest
      | some (ft, snap) =>
          if ft ≤ c.time then
            (ft, snap) :: runDebounce (some (c.time + DEBOUNCE_MS, c.snap)) rest
          else
            runDebounce (some (c.time + DEBOUNCE_MS, c.snap)) rest

theorem runDebounce_coalesce (calls : List SetCall) :
    ∀ c0 : SetCall, List.Chain (fun a b => b.time < a.time + DEBOUNCE_MS) c0 calls →
      runDebounce (some (c0.time + DEBOUNCE_MS, c0.snap)) calls =
        [((calls.getLastD c0).time + DEBOUNCE_MS, (calls.getLastD c0).snap)] := by
  induction calls with
  | nil => intro c0 _; rfl
  | cons c rest ih =>
      intro c0 hch
      rw [List.chain_cons] at hch
      have hlt : ¬ (c0.time + DEBOUNCE_MS ≤ c.time) := by omega
      simp only [runDebounce, if_neg hlt]
      rw [ih c hch.2]
      rw [List.getLastD_cons]

/-! Interleaving model of InstanceService.enqueueReconnection.  Each task
is one call of enqueueReconnection; activeReconnections is the shared
counter.  Steps are the suspension points of the source: the busy-wait
test (await sleep 500 while active is at the cap), the jitter sleep
(awaited after the test and before the increment), the increment followed
by the awaited connectInstance, and the finally-block decrement. -/

/-- Program counter of one enqueueReconnection task. -/
inductive PC where
  | checking
  | jittering
  | running
  | finished
deriving DecidableEq, Repr

/-- MAX_CONCURRENT_RECONNECTIONS from instance.service.ts. -/
def MAX_CONCURRENT_RECONNECTIONS : Nat := 5

/-- Shared state: the tasks and the activeReconnections counter. -/
structure SemState where
  tasks : List PC
  active : Nat
deriving DecidableEq, Repr

/-- Scheduler step: resume task i until its next suspension point.  A
checking task re-tests the while condition and either keeps sleeping or
leaves the loop into the jitter sleep; a jittering task returns from the
sleep, increments activeReconnections and starts connectInstance; a
running task settles connectInstance and decrements in the finally block. -/
def semStep (s : SemState) (i : Nat) : SemState :=
  match s.tasks[i]? with
  | none => s
  | some PC.checking =>
      if s.active ≥ MAX_CONCURRENT_RECONNECTIONS then s
      else { s with tasks := s.tasks.set i PC.jittering }
  | some PC.jittering => { tasks := s.tasks.set i PC.running, active := s.active + 1 }
  | some PC.running => { tasks := s.tasks.set i PC.finished, active := s.active - 1 }
  | some PC.finished => s

/-- Execution of a schedule (a sequence of task resumptions). -/
def semRun (s : SemState) (sched : List Nat) : SemState :=
  sched.foldl semStep s

/-- Initial state of n concurrent enqueueReconnection calls. -/
def semInit (n : Nat) : SemState :=
  { tasks := List.replicate n PC.checking, active := 0 }

/-! Association-list lemmas for the key store and the QR mirror. -/

theorem lookupA_setAssoc {α : Type} (m : List (String × α)) (k : String) (v : α) :
    lookupA (setAssoc m k v) k = some v := by
  induction m with
  | nil => simp [setAssoc, lookupA]
  | cons p rest ih =>
      by_cases h : p.1 = k
      · simp [setAssoc, h, lookupA]
      · simp [setAssoc, h, lookupA, ih]

theorem lookupA_eraseAssoc {α : Type} (m : List (String × α)) (k : String) :
    lookupA (eraseAssoc m k) k = none := by
  induction m with
  | nil => rfl
  | cons p rest ih =>
      by_cases h : p.1 = k
      · simpa [eraseAssoc, h] using ih
      · simpa [eraseAssoc, h, lookupA] using ih

theorem lookupA_mem {α : Type} (m : List (String × α)) (k : String) (v : α)
    (h : lookupA m k = some v) : (k, v) ∈ m := by
  induction m with
  | nil => simp [lookupA] at h
  | cons p rest ih =>
      rw [lookupA] at h
      by_cases hp : p.1 = k
      · rw [if_pos hp] at h
        cases p
        simp_all
      · rw [if_neg hp] at h
        exact List.mem_cons_of_mem _ (ih h)

/-! Claim theorems. -/

/-- C1: the claim states that activeReconnections never exceeds
MAX_CONCURRENT_RECONNECTIONS = 5 under every interleaving of the busy-wait
check, the jitter sleep and the increment.  The code separates the
busy-wait test from the increment by the awaited jitter sleep, so six
concurrent enqueueReconnection tasks can each pass the test while the
counter is still 0 and then all increment: after the schedule below the
counter is 6, exceeding the cap of 5. -/
theorem enqueueReconnection_counter_reaches_six :
    (semRun (semInit 6) [0, 1, 2, 3, 4, 5, 0, 1, 2, 3, 4, 5]).active = 6 ∧
    MAX_CONCURRENT_RECONNECTIONS = 5 :=
  ⟨rfl, rfl⟩

/-- C7: when the socket map holds at least maxInstances live sockets,
createInstance fails with the capacity ConflictException (409) before any
datastore access: the result pairs the conflict with the coordinator state
returned unchanged (socket map, QR mirror, registry rows and sessions all
as before). -/
theorem createInstance_capacity (cfg : Config) (st : CoordState)
    (dto : CreateInstanceDto) (newId : String)
    (h : st.sockets.length ≥ cfg.maxInstances) :
    createInstance cfg st dto newId = (Except.error ApiError.conflict, st) := by
  unfold createInstance
  rw [if_pos h]

/-- Coordinator state with 80 live sockets, at the default capacity. -/
def stCapacity : CoordState :=
  { sockets := (List.range 80).map (fun n => (toString n, none)),
    qrCodes := [], reconnecting := [], reconnectAttempts := [],
    rows := [], sessions := [], scheduled := [] }

/-- Witness for C7 at the default configuration (maxInstances = 80). -/
theorem createInstance_capacity_witness :
    stCapacity.sockets.length ≥ config.maxInstances ∧
    createInstance config stCapacity ⟨"u1", "vendas-01", "https://n8n.example.com/hook"⟩ "i1" =
      (Except.error ApiError.conflict, stCapacity) :=
  ⟨by simp [stCapacity, config],
   createInstance_capacity config stCapacity
     ⟨"u1", "vendas-01", "https://n8n.example.com/hook"⟩ "i1"
     (by simp [stCapacity, config])⟩

/-- C10: an id whose entry is in the in-memory QR mirror is answered from
the mirror with status qr_pending and the registry is not consulted (the
result is the same for every rows table, even one without the id's row);
getQrCode raises NotFound exactly when the mirror has no entry for the id
and the registry has no row.  Mirror entries are PNG data URLs produced by
the QR renderer, hence non-empty, which the hypothesis records. -/
theorem getQrCode_mirror_first (st : CoordState) (id : String)
    (hne : ∀ p ∈ st.qrCodes, p.2 ≠ "") :
    (∀ q, lookupA st.qrCodes id = some q →
        ∀ rows2, getQrCode { st with rows := rows2 } id =
          Except.ok (some q, Status.qr_pending)) ∧
    (getQrCode st id = Except.error ApiError.notFound ↔
      (lookupA st.qrCodes id = none ∧ st.rows.find? (fun r => r.id == id) = none)) := by
  constructor
  · intro q hq rows2
    have hq2 : lookupA ({ st with rows := rows2 } : CoordState).qrCodes id = some q := hq
    have hne2 : q ≠ "" := hne (id, q) (lookupA_mem _ _ _ hq)
    unfold getQrCode
    rw [hq2]
    simp [hne2]
  · constructor
    · intro herr
      cases hq : lookupA st.qrCodes id with
      | some q =>
          have hne2 : q ≠ "" := hne (id, q) (lookupA_mem _ _ _ hq)
          unfold getQrCode at herr
          rw [hq] at herr
          simp [hne2] at herr
      | none =>
          unfold getQrCode getQrCodeDb at herr
          rw [hq] at herr
          cases hf : st.rows.find? (fun r => r.id == id) with
          | some r => rw [hf] at herr; simp at herr
          | none => exact ⟨rfl, rfl⟩
    · intro hcase
      unfold getQrCode getQrCodeDb
      rw [hcase.1, hcase.2]

/-- Coordinator state with one mirrored QR entry and an empty registry. -/
def stQr : CoordState :=
  { sockets := [], qrCodes := [("i1", "data:image/png;base64,abc")],
    reconnecting := [], reconnectAttempts := [], rows := [],
    sessions := [], scheduled := [] }

/-- Witness for C10: the mirror entry for i1 answers qr_pending for every
registry contents, and NotFound is characterised by the double miss. -/
theorem getQrCode_mirror_first_witness :
    (∀ p ∈ stQr.qrCodes, p.2 ≠ "") ∧
    ((∀ q, lookupA stQr.qrCodes "i1" = some q →
        ∀ rows2, getQrCode { stQr with rows := rows2 } "i1" =
          Except.ok (some q, Status.qr_pending)) ∧
     (getQrCode stQr "i1" = Except.error ApiError.notFound ↔
       (lookupA stQr.qrCodes "i1" = none ∧
        stQr.rows.find? (fun r => r.id == "i1") = none))) :=
  ⟨by decide, getQrCode_mirror_first stQr "i1" (by decide)⟩

/-- Registry row of instance n1, connected, used by the scenarios below. -/
def rowN1 : Row :=
  { id := "i1", user_id := "u1", instance_name := "n1",
    webhook_url := "https://n8n.example.com/hook",
    connection_status := Status.connected, is_connected := true,
    qr_code := none, qr_code_expires_at := none,
    owner_phone_number := some "5511999999999", last_connected_at := some 1000 }

/-- Close event with a non-logout disconnect reason (408, connection lost). -/
def closeLost : ConnUpdate :=
  { connection := some ConnKind.kclose, statusCode := some 408, qr := none }

/-- State of instance i1 while a reconnection is already scheduled: the
reconnecting flag is set, one retry recorded, session blob present. -/
def stReconnecting : CoordState :=
  { sockets := [("i1", none)], qrCodes := [],
    reconnecting := ["i1"], reconnectAttempts := [("i1", 1)],
    rows := [{ rowN1 with connection_status := Status.connecting, is_connected := false }],
    sessions := ["n1"], scheduled := ["i1"] }

/-- C2: the claim states the session blob is removed iff the close reason
is the logged-out sentinel, and that any other close preserves the blob.
Evaluating handleConnectionUpdate at a close with reason 408 for an
instance already flagged reconnecting: the guard (shouldReconnect and not
reconnecting) fails, so the branch commented as the explicit-logout path
runs — the whatsapp_sessions row is removed and the registry row written
disconnected even though the reason is not loggedOut (401). -/
theorem nonLogoutClose_wipes_session_when_reconnecting :
    (handleConnectionUpdate stReconnecting "i1" "n1" closeLost 2000).sessions = [] ∧
    (handleConnectionUpdate stReconnecting "i1" "n1" closeLost 2000).rows.map
      Row.connection_status = [Status.disconnected] ∧
    (handleConnectionUpdate stReconnecting "i1" "n1" closeLost 2000).scheduled = ["i1"] ∧
    closeLost.statusCode ≠ some loggedOut := by
  decide

/-- State of connected instance i1 with no retries recorded. -/
def stConnected : CoordState :=
  { sockets := [("i1", some "5511999999999:1@s.whatsapp.net")], qrCodes := [],
    reconnecting := [], reconnectAttempts := [],
    rows := [rowN1], sessions := ["n1"], scheduled := [] }

/-- Run of a supervisor whose connects continuously fail with non-logout
closes: first close (attempt 1 is scheduled), the queued reconnect
(connectInstance), then the reconnect's own non-logout close. -/
def failingRun : CoordState :=
  handleConnectionUpdate
    (connectInstance (handleConnectionUpdate stConnected "i1" "n1" closeLost 2000) "i1" "n1")
    "i1" "n1" closeLost 3000

/-- C3: the claim states a supervisor whose connects continuously fail
with non-logout closes is attempted exactly 5 times and then lands in
failed.  Evaluating the code on such a run: the second close arrives with
the reconnecting flag still set (nothing clears it when a reconnect fails
before an open), so it takes the logout branch — after a single scheduled
attempt the status is disconnected (never failed), the retry counter is
erased, and the session blob is wiped. -/
theorem failing_supervisor_attempted_once_not_five :
    failingRun.scheduled = ["i1"] ∧
    failingRun.rows.map Row.connection_status = [Status.disconnected] ∧
    lookupA failingRun.reconnectAttempts "i1" = none ∧
    failingRun.sessions = [] := by
  decide

/-- State of instance i1 with retry counter 3, about to be deleted. -/
def stDelete : CoordState :=
  { sockets := [("i1", none)], qrCodes := [("i1", "data:image/png;base64,abc")],
    reconnecting := ["i1"], reconnectAttempts := [("i1", 3)],
    rows := [rowN1], sessions := ["n1"], scheduled := [] }

/-- C9 counterexample: after a successful deleteInstance the per-instance
retry counter still holds its old value 3; the claim says delete clears it
back to the absent state. -/
theorem deleteInstance_keeps_retry_counter :
    (deleteInstance stDelete "i1").map (fun s => lookupA s.reconnectAttempts "i1") =
      Except.ok (some 3) := by
  rfl

/-- C9 amended: deleteInstance closes and drops the socket, drops the QR
mirror entry and the reconnecting flag, wipes the session blob and deletes
the registry row — but does not clear the retry counter, which keeps its
previous value. -/
theorem deleteInstance_effects (st : CoordState) (id : String) (row : Row)
    (h : st.rows.find? (fun r => r.id == id) = some row) :
    deleteInstance st id = Except.ok
      { sockets := eraseAssoc st.sockets id,
        qrCodes := eraseAssoc st.qrCodes id,
        reconnecting := st.reconnecting.filter (fun x => x != id),
        reconnectAttempts := st.reconnectAttempts,
        rows := st.rows.filter (fun r => r.id != id),
        sessions := st.sessions.filter (fun x => x != row.instance_name),
        scheduled := st.scheduled } := by
  unfold deleteInstance
  rw [h]

/-- Witness for the amended C9 at the concrete pre-delete state. -/
theorem deleteInstance_effects_witness :
    stDelete.rows.find? (fun r => r.id == "i1") = some rowN1 ∧
    deleteInstance stDelete "i1" = Except.ok
      { sockets := eraseAssoc stDelete.sockets "i1",
        qrCodes := eraseAssoc stDelete.qrCodes "i1",
        reconnecting := stDelete.reconnecting.filter (fun x => x != "i1"),
        reconnectAttempts := stDelete.reconnectAttempts,
        rows := stDelete.rows.filter (fun r => r.id != "i1"),
        sessions := stDelete.sessions.filter (fun x => x != rowN1.instance_name),
        scheduled := stDelete.scheduled } :=
  ⟨by decide, deleteInstance_effects stDelete "i1" rowN1 (by decide)⟩

/-- Registry in which user u1 already owns instance n1, and no sockets. -/
def stOneUser : CoordState :=
  { sockets := [], qrCodes := [], reconnecting := [], reconnectAttempts := [],
    rows := [rowN1], sessions := [], scheduled := [] }

/-- C6 counterexample: user u1 already owns an instance; creating a second
one under a fresh name n2 fails — but with the generic internal error
(the failed insert is re-thrown as a plain Error, HTTP 500), not with the
409 ConflictError the claim states for the per-user uniqueness case. -/
theorem createInstance_userConflict_not409 :
    (createInstance config stOneUser ⟨"u1", "n2", "https://w"⟩ "i2").1 =
      Except.error ApiError.internal ∧
    ApiError.internal ≠ ApiError.conflict :=
  ⟨rfl, by decide⟩

/-- C6 amended: under capacity, a create whose instance_name already
exists fails with the 409 ConflictError and the state unchanged; a create
whose name is fresh but whose user already owns an instance (or whose
insert otherwise violates a uniqueness constraint) fails on the insert and
surfaces as the generic internal error (500), also with the state
unchanged.  In both cases no registry row remains and no connection is
started, as the returned state records. -/
theorem createInstance_conflicts (cfg : Config) (st : CoordState)
    (dto : CreateInstanceDto) (newId : String)
    (hcap : st.sockets.length < cfg.maxInstances) :
    ((st.rows.find? (fun r => r.instance_name == dto.instance_name)).isSome →
      createInstance cfg st dto newId = (Except.error ApiError.conflict, st)) ∧
    ((st.rows.find? (fun r => r.instance_name == dto.instance_name)) = none →
     (st.rows.find? (fun r =>
        r.user_id == dto.user_id || r.instance_name == dto.instance_name ||
        r.id == newId)).isSome →
      createInstance cfg st dto newId = (Except.error ApiError.internal, st)) := by
  have hnot : ¬ st.sockets.length ≥ cfg.maxInstances := by omega
  constructor
  · intro hname
    unfold createInstance
    rw [if_neg hnot]
    simp [hname]
  · intro hname huser
    unfold createInstance
    rw [if_neg hnot]
    simp [hname, huser]

/-- Witness for the amended C6 at the one-owner registry. -/
theorem createInstance_conflicts_witness :
    stOneUser.sockets.length < config.maxInstances ∧
    (((stOneUser.rows.find? (fun r => r.instance_name == "n2")).isSome →
       createInstance config stOneUser ⟨"u1", "n2", "https://w"⟩ "i2" =
         (Except.error ApiError.conflict, stOneUser)) ∧
     ((stOneUser.rows.find? (fun r => r.instance_name == "n2")) = none →
      (stOneUser.rows.find? (fun r =>
         r.user_id == "u1" || r.instance_name == "n2" || r.id == "i2")).isSome →
       createInstance config stOneUser ⟨"u1", "n2", "https://w"⟩ "i2" =
         (Except.error ApiError.internal, stOneUser))) :=
  ⟨by decide,
   createInstance_conflicts config stOneUser ⟨"u1", "n2", "https://w"⟩ "i2" (by decide)⟩

/-- Truthiness is preserved by the encoder: only a raw byte sequence
changes shape, and both it and its tagged encoding are truthy. -/
theorem truthy_encode (v : Val) : truthy (encode v) = truthy v := by
  cases v <;> rfl

/-- C4: K consecutive key_store.set calls against the same instance, each
arriving within 500 ms of the previous one (inside the window that the
previous set rescheduled), produce exactly one keys update; it fires
DEBOUNCE_MS after the last set — the window is rescheduled from the time
of each set — and writes that set's snapshot, the in-memory keys map at
the moment the window fires. -/
theorem debounced_writes_coalesce (c : SetCall) (rest : List SetCall)
    (h : List.Chain (fun a b => b.time < a.time + DEBOUNCE_MS) c rest) :
    runDebounce none (c :: rest) =
      [((rest.getLastD c).time + DEBOUNCE_MS, (rest.getLastD c).snap)] :=
  runDebounce_coalesce rest c h

/-- Three set calls inside one rolling 500 ms window (gaps 200 and 400). -/
def setCall1 : SetCall := ⟨0, [("sender-key-a", Val.vnum 1)]⟩

def setCall2 : SetCall := ⟨200, [("sender-key-a", Val.vnum 2)]⟩

def setCall3 : SetCall := ⟨600, [("sender-key-a", Val.vnum 3)]⟩

/-- Witness for C4: the three coalesced sets yield the single write of the
last snapshot at time 1100. -/
theorem debounced_writes_coalesce_witness :
    List.Chain (fun a b => b.time < a.time + DEBOUNCE_MS) setCall1 [setCall2, setCall3] ∧
    runDebounce none [setCall1, setCall2, setCall3] =
      [(([setCall2, setCall3].getLastD setCall1).time + DEBOUNCE_MS,
        ([setCall2, setCall3].getLastD setCall1).snap)] := by
  have hch : List.Chain (fun a b => b.time < a.time + DEBOUNCE_MS) setCall1
      [setCall2, setCall3] :=
    List.Chain.cons (by decide) (List.Chain.cons (by decide) List.Chain.nil)
  exact ⟨hch, debounced_writes_coalesce setCall1 [setCall2, setCall3] hch⟩

/-- C5 counterexample: setting the non-null value "" (empty string) for
(sender-key, k1) and then getting k1 returns no entry: the stored value is
falsy, so the (if rawValue) guard in keys.get skips it, although the claim
allows the id to be absent only when the value set was null. -/
theorem keyGet_drops_falsy_value :
    keyGet (keySet [] "sender-key" "k1" (some (Val.vstr ""))) "sender-key" ["k1"] = [] ∧
    some (Val.vstr "") ≠ (none : Option Val) :=
  ⟨rfl, by decide⟩

/-- C5 amended: for every value v that is truthy (not null, false, 0 or
the empty string; the encoder preserves truthiness) and contains no object
already shaped like the Buffer tag, set (type, id, v) followed by
get (type, [id]) returns v byte-for-byte after the codec round-trip,
embedded byte sequences included; for a null v the id is deleted and
absent from the result (and a falsy non-null v is also reported absent). -/
theorem keySet_keyGet_roundtrip (m : List (String × Val)) (type id : String)
    (v : Val) (hT : truthy v = true) (hF : tagFree v = true) :
    keyGet (keySet m type id (some v)) type [id] = [(id, v)] ∧
    keyGet (keySet m type id none) type [id] = [] := by
  constructor
  · have ht : truthy (encode v) = true := by rw [truthy_encode]; exact hT
    have h1 : keySet m type id (some v) = setAssoc m (compositeKey type id) (encode v) := rfl
    rw [h1]
    unfold keyGet
    rw [lookupA_setAssoc]
    simp [ht, fromObject, decode_encode v hF, keyGet]
  · have h1 : keySet m type id none = eraseAssoc m (compositeKey type id) := rfl
    rw [h1]
    unfold keyGet
    rw [lookupA_eraseAssoc]
    rfl

/-- Sample tag-free truthy value with an embedded binary blob. -/
def vSample : Val :=
  Val.vobj (Obj.ocons "keyData" (Val.vbuf [0, 255, 7])
    (Obj.ocons "fingerprint" (Val.vnum 42) Obj.onil))

/-- Witness for the amended C5 on a document holding a byte sequence, in
the app-state-sync-key category. -/
theorem keySet_keyGet_roundtrip_witness :
    truthy vSample = true ∧ tagFree vSample = true ∧
    (keyGet (keySet [] "app-state-sync-key" "k1" (some vSample))
        "app-state-sync-key" ["k1"] = [("k1", vSample)] ∧
     keyGet (keySet [] "app-state-sync-key" "k1" none) "app-state-sync-key" ["k1"] = []) :=
  ⟨by decide, by decide,
   keySet_keyGet_roundtrip [] "app-state-sync-key" "k1" vSample (by decide) (by decide)⟩

/-- C8: boot recovery selects exactly the registry rows whose status is
connected, connecting or qr_pending, ordered by last_connected_at
ascending and capped at maxInstances; the trace issues exactly one
connect per selected row, in order and independently of which connects
fail, partitioned into ceil(k/5) batches of at most 5 rows, with exactly
one sleep of staggeredBootDelayMs between consecutive batches and none
after the final batch. -/
theorem boot_recovery_trace (cfg : Config) (rows : List Row) (fails : String → Bool) :
    (bootQuery cfg rows).all activeStatus = true ∧
    List.Sorted lcaLe (bootQuery cfg rows) ∧
    (bootQuery cfg rows).length = min cfg.maxInstances (rows.filter activeStatus).length ∧
    connectIds (onModuleInit cfg fails rows) = (bootQuery cfg rows).map Row.id ∧
    (bootBatches (bootQuery cfg rows)).length = ((bootQuery cfg rows).length + 4) / 5 ∧
    (bootBatches (bootQuery cfg rows)).all (fun b => decide (b.length ≤ 5)) = true ∧
    (onModuleInit cfg fails rows).filter isSleep =
      List.replicate ((bootBatches (bootQuery cfg rows)).length - 1)
        (BootEv.sleep cfg.staggeredBootDelayMs) := by
  refine ⟨?_, ?_, ?_, ?_, ?_, ?_, ?_⟩
  · rw [List.all_eq_true]
    intro x hx
    have h1 : x ∈ List.insertionSort lcaLe (rows.filter activeStatus) :=
      (List.take_sublist _ _).mem hx
    have h2 : x ∈ rows.filter activeStatus :=
      (List.perm_insertionSort lcaLe _).mem_iff.mp h1
    exact List.of_mem_filter h2
  · exact ((List.sorted_insertionSort lcaLe _).sublist (List.take_sublist _ _))
  · rw [bootQuery, List.length_take,
      (List.perm_insertionSort lcaLe (rows.filter activeStatus)).length_eq]
  · rw [onModuleInit, connectIds_bootTrace, bootBatches_flatten]
  · exact bootBatches_length _
  · exact bootBatches_sizes _
  · rw [onModuleInit, sleeps_bootTrace, bootBatches_length]

end Wpp
